import Mathlib

/-!
Shallow embedding of `src/Image Classification/classify.py`, the
capture → classify → render loop (function `run`), together with its FPS
bookkeeping, the hardcoded label lookup and the overlay-text formatting.

Modelling conventions:
* Python floats are modelled as exact rationals (`ℚ`); `time.time()` values
  are supplied as per-iteration rational timestamps.
* The external camera, classifier and display are modelled as per-iteration
  inputs (`IterInput`) and as an emitted event trace (`Event`): reading a
  frame, the classifier call together with the exact image passed to it,
  every `cv2.putText` call with its text and position, the diagnostic
  prints, `cv2.imshow`, `cv2.waitKey`, `cap.release()` and
  `cv2.destroyAllWindows()`.
* Referencing the local variable `category_name` before any assignment
  raises `UnboundLocalError` in Python; this is modelled by the loop state
  carrying `category_name : Option String` and the iteration outcome
  `StepResult.crashed`.
* `sys.exit(message)` prints the message to stderr and exits the process
  with code 1; it is modelled by `RunResult.fatal` and `exitCode`.
-/

namespace Classify

/-- A pixel: three channel values in buffer order (OpenCV captures BGR). -/
structure Pixel where
  c0 : ℕ
  c1 : ℕ
  c2 : ℕ
deriving DecidableEq

/-- A raw frame: rows of pixels. -/
abbrev Frame := List (List Pixel)

/-- `cv2.flip(image, 1)` (line 87): horizontal mirror, every row reversed. -/
def flip1 (img : Frame) : Frame := img.map List.reverse

/-- `cv2.cvtColor(image, cv2.COLOR_BGR2RGB)` (line 93): per-pixel channel
order reversal. -/
def cvtColorBGR2RGB (img : Frame) : Frame :=
  img.map (List.map fun p => Pixel.mk p.c2 p.c1 p.c0)

/-- One entry of `categories.classifications[0].categories` (line 104). -/
structure Category where
  index : ℕ
  score : ℚ
deriving DecidableEq

/-- Kernel-computable floor of a rational. -/
def ratFloor (q : ℚ) : ℤ := q.num / q.den

/-- Python rounding of an exact rational to the nearest integer, ties to
even (banker's rounding), as used by the built-in `round`. -/
def pyRoundInt (x : ℚ) : ℤ :=
  if x - ratFloor x < 1 / 2 then ratFloor x
  else if 1 / 2 < x - ratFloor x then ratFloor x + 1
  else if ratFloor x % 2 = 0 then ratFloor x else ratFloor x + 1

/-- Python `round(x, 2)` on the exact-rational model of a float. -/
def pyRound2 (x : ℚ) : ℚ := (pyRoundInt (x * 100) : ℚ) / 100

/-- Python `int(x)`: truncation toward zero. -/
def pyInt (x : ℚ) : ℤ := if 0 ≤ x then ratFloor x else -ratFloor (-x)

/-- Python `str` of a float that is an exact multiple of 1/100: shortest
decimal form with at least one digit after the point. -/
def pyFloatStr (q : ℚ) : String :=
  let k : ℤ := ratFloor (q * 100)
  let sign : String := if k < 0 then "-" else ""
  let a : ℕ := k.natAbs
  let whole : ℕ := a / 100
  let cents : ℕ := a % 100
  if cents = 0 then sign ++ toString whole ++ ".0"
  else if cents % 10 = 0 then sign ++ toString whole ++ "." ++ toString (cents / 10)
  else if cents < 10 then sign ++ toString whole ++ ".0" ++ toString cents
  else sign ++ toString whole ++ "." ++ toString cents

/-- Visualization parameter `_ROW_SIZE` (line 26). -/
def _ROW_SIZE : ℕ := 30

/-- Visualization parameter `_LEFT_MARGIN` (line 27). -/
def _LEFT_MARGIN : ℕ := 25

/-- `_FPS_AVERAGE_FRAME_COUNT` (line 31). -/
def _FPS_AVERAGE_FRAME_COUNT : ℕ := 10

/-- The `if`/`elif` chain resolving a category index to a label
(lines 108–113).  An index outside 0, 1, 2 matches no branch and leaves the
previous binding of `category_name` untouched. -/
def categoryNameUpdate (index : ℕ) (prev : Option String) : Option String :=
  if index = 0 then some "hp"
  else if index = 1 then some "mouse"
  else if index = 2 then some "diki"
  else prev

/-- The total label map realised by the chain on recognized indices
(0 → "hp", 1 → "mouse", 2 → "diki"). -/
def labelOf (index : ℕ) : String :=
  if index = 0 then "hp" else if index = 1 then "mouse" else "diki"

/-- `score = round(category.score, 2); score_persentase = score * 100`
(lines 115–116). -/
def score_persentase (s : ℚ) : ℚ := pyRound2 s * 100

/-- `result_text` (line 117).  Note the leading space inside the literal
`' Classification Result >> '`. -/
def result_text (category_name : String) (s : ℚ) : String :=
  " Classification Result >> " ++ category_name ++ " " ++
    pyFloatStr (score_persentase s) ++ "%"

/-- Observable actions of one run of the loop, in program order. -/
inductive Event where
  | readFrame : Event
  | classifyCall : Frame → Event
  | drawResult : String → ℕ × ℕ → Event
  | printInference : Event
  | printResult : String → Event
  | fpsRecompute : ℚ → Event
  | drawFps : String → ℕ × ℕ → Event
  | imshow : Event
  | pollKey : ℤ → Event
  | release : Event
  | destroyAllWindows : Event
deriving DecidableEq

/-- Recognizer for `Event.fpsRecompute`. -/
def isFpsRecompute : Event → Bool
  | Event.fpsRecompute _ => true
  | _ => false

/-- Recognizer for `Event.drawFps`. -/
def isDrawFps : Event → Bool
  | Event.drawFps _ _ => true
  | _ => false

/-- Recognizer for `Event.drawResult`. -/
def isDrawResult : Event → Bool
  | Event.drawResult _ _ => true
  | _ => false

/-- Recognizer for `Event.classifyCall`. -/
def isClassifyCall : Event → Bool
  | Event.classifyCall _ => true
  | _ => false

/-- Recognizer for `Event.imshow`. -/
def isImshow : Event → Bool
  | Event.imshow => true
  | _ => false

/-- Recognizer for `Event.printInference`. -/
def isPrintInference : Event → Bool
  | Event.printInference => true
  | _ => false

/-- Recognizer for `Event.release`. -/
def isRelease : Event → Bool
  | Event.release => true
  | _ => false

/-- Recognizer for the three events emitted by the body of the for-loop
over categories. -/
def isResultEvent : Event → Bool
  | Event.drawResult _ _ => true
  | Event.printInference => true
  | Event.printResult _ => true
  | _ => false

/-- The images handed to `classifier.classify` in a trace. -/
def classifyInputs (tr : List Event) : List Frame :=
  tr.filterMap fun e =>
    match e with
    | Event.classifyCall f => some f
    | _ => none

/-- The body of the `for` loop over the first classification group's
categories (lines 104–124).  Returns the final binding of `category_name`,
the emitted events (draw the result text at `(50, 450)`, print the
inference duration, print the result text — in program order), and whether
an `UnboundLocalError` was raised (unrecognized index while `category_name`
is still unbound). -/
def processCategories : Option String → List Category →
    Option String × List Event × Bool
  | name, [] => (name, [], false)
  | name, c :: rest =>
    match categoryNameUpdate c.index name with
    | none => (none, [], true)
    | some n =>
      let text := result_text n c.score
      let out := processCategories (some n) rest
      (out.1,
       Event.drawResult text (50, 450) :: Event.printInference ::
         Event.printResult text :: out.2.1,
       out.2.2)

/-- Lines 127–130: on every frame whose (already incremented) counter is a
multiple of `_FPS_AVERAGE_FRAME_COUNT`, recompute
`fps = _FPS_AVERAGE_FRAME_COUNT / (end_time - start_time)` and reset the
window start time; otherwise keep `fps` and `start_time` unchanged.
Returns the new `fps`, the new `start_time` and the recompute events. -/
def fpsUpdate (counter : ℕ) (fps start_time endTime resetTime : ℚ) :
    ℚ × ℚ × List Event :=
  if counter % _FPS_AVERAGE_FRAME_COUNT = 0 then
    let f := (_FPS_AVERAGE_FRAME_COUNT : ℚ) / (endTime - start_time)
    (f, resetTime, [Event.fpsRecompute f])
  else (fps, start_time, [])

/-- `fps_ms_raw` (lines 133–136). -/
def fps_ms_raw (fps : ℚ) : ℚ := if fps > 0 then 1 / fps * 1000 else 0

/-- `fps_ms = round(fps_ms_raw, 2)` (line 137). -/
def fps_ms (fps : ℚ) : ℚ := pyRound2 (fps_ms_raw fps)

/-- `str(fps_ms)`: in the `fps > 0` branch `fps_ms` is a float; in the
other branch it is the Python int `0`, which prints as `"0"`. -/
def fps_ms_str (fps : ℚ) : String :=
  if fps > 0 then pyFloatStr (fps_ms fps) else "0"

/-- `fps_text = str(int(fps)) + ' fps / ' + str(fps_ms) + ' ms'`
(line 138). -/
def fps_text (fps : ℚ) : String :=
  toString (pyInt fps) ++ " fps / " ++ fps_ms_str fps ++ " ms"

/-- The loop-carried state of `run`: the FPS counters (lines 70–71) and the
binding state of the local `category_name`. -/
structure LoopState where
  counter : ℕ
  fps : ℚ
  start_time : ℚ
  category_name : Option String
deriving DecidableEq

/-- The state before the first iteration: `counter, fps = 0, 0`,
`start_time = time.time()`, `category_name` unbound. -/
def initState (t0 : ℚ) : LoopState := ⟨0, 0, t0, none⟩

/-- The environment's behaviour on one iteration: whether `cap.read()`
succeeds and with which frame, the categories the classifier returns for
it, the `time.time()` values read at lines 128 and 130, and the key code
returned by `cv2.waitKey(1)`. -/
structure IterInput where
  readOk : Bool
  frame : Frame
  categories : List Category
  endTime : ℚ
  resetTime : ℚ
  key : ℤ
deriving DecidableEq

/-- The error message passed to `sys.exit` (lines 82–84). -/
def webcamError : String :=
  "ERROR: Unable to read from webcam. Please verify your webcam settings."

/-- Outcome of one iteration of the `while` loop. -/
inductive StepResult where
  | next : LoopState → List Event → StepResult
  | breakLoop : LoopState → List Event → StepResult
  | fatalExit : String → List Event → StepResult
  | crashed : List Event → StepResult
deriving DecidableEq

/-- One iteration of the `while` loop (lines 79–150), in program order:
read; on failure `sys.exit`; increment the counter; flip; convert to RGB;
classify; run the for-loop over categories; update the FPS state; draw the
FPS overlay at `(_LEFT_MARGIN, _ROW_SIZE)`; poll `cv2.waitKey(1)` and break
on key 27; otherwise `cv2.imshow`. -/
def step (st : LoopState) (inp : IterInput) : StepResult :=
  if inp.readOk = false then
    StepResult.fatalExit webcamError [Event.readFrame]
  else
    let counter1 := st.counter + 1
    let image := flip1 inp.frame
    let rgb_image := cvtColorBGR2RGB image
    let catOut := processCategories st.category_name inp.categories
    let evs0 := [Event.readFrame, Event.classifyCall rgb_image] ++ catOut.2.1
    if catOut.2.2 then StepResult.crashed evs0
    else
      let fpsOut := fpsUpdate counter1 st.fps st.start_time inp.endTime inp.resetTime
      let evs1 := evs0 ++ fpsOut.2.2 ++
        [Event.drawFps (fps_text fpsOut.1) (_LEFT_MARGIN, _ROW_SIZE),
         Event.pollKey inp.key]
      let st1 : LoopState := ⟨counter1, fpsOut.1, fpsOut.2.1, catOut.1⟩
      if inp.key = 27 then StepResult.breakLoop st1 evs1
      else StepResult.next st1 (evs1 ++ [Event.imshow])

/-- The events emitted by one iteration. -/
def stepEvents : StepResult → List Event
  | StepResult.next _ evs => evs
  | StepResult.breakLoop _ evs => evs
  | StepResult.fatalExit _ evs => evs
  | StepResult.crashed evs => evs

/-- The state carried out of an iteration that does not end the process. -/
def stepState? : StepResult → Option LoopState
  | StepResult.next st _ => some st
  | StepResult.breakLoop st _ => some st
  | _ => none

/-- Outcome of the whole process from loop entry on. -/
inductive RunResult where
  | cleanExit : List Event → RunResult
  | fatal : String → List Event → RunResult
  | crashed : List Event → RunResult
deriving DecidableEq

/-- The loop over a finite schedule of per-iteration inputs.  When the
schedule is exhausted (or the `break` at line 149 fires) the teardown
`cap.release(); cv2.destroyAllWindows()` (lines 152–153) runs and the
process exits with code 0.  `sys.exit` at line 82 and an uncaught
`UnboundLocalError` both leave the loop without running the teardown. -/
def runLoop (st : LoopState) : List IterInput → RunResult
  | [] => RunResult.cleanExit [Event.release, Event.destroyAllWindows]
  | inp :: rest =>
    match step st inp with
    | StepResult.next st1 evs =>
      match runLoop st1 rest with
      | RunResult.cleanExit tr => RunResult.cleanExit (evs ++ tr)
      | RunResult.fatal m tr => RunResult.fatal m (evs ++ tr)
      | RunResult.crashed tr => RunResult.crashed (evs ++ tr)
    | StepResult.breakLoop _ evs =>
      RunResult.cleanExit (evs ++ [Event.release, Event.destroyAllWindows])
    | StepResult.fatalExit m evs => RunResult.fatal m evs
    | StepResult.crashed evs => RunResult.crashed evs

/-- Process exit code: 0 on a clean exit, 1 for `sys.exit(message)` and for
an uncaught exception. -/
def exitCode : RunResult → ℕ
  | RunResult.cleanExit _ => 0
  | RunResult.fatal _ _ => 1
  | RunResult.crashed _ => 1

/-- The full event trace of a run. -/
def trace : RunResult → List Event
  | RunResult.cleanExit tr => tr
  | RunResult.fatal _ tr => tr
  | RunResult.crashed tr => tr

/-- Number of FPS recomputations recorded in a trace. -/
def recomputeCount (tr : List Event) : ℕ := tr.countP isFpsRecompute

/-- The value of `fps` after the FPS update of one iteration. -/
def fpsAfter (st : LoopState) (inp : IterInput) : ℚ :=
  (fpsUpdate (st.counter + 1) st.fps st.start_time inp.endTime inp.resetTime).1

/-- The state after one successful, non-breaking iteration. -/
def nextState (st : LoopState) (inp : IterInput) : LoopState :=
  ⟨st.counter + 1,
   (fpsUpdate (st.counter + 1) st.fps st.start_time inp.endTime inp.resetTime).1,
   (fpsUpdate (st.counter + 1) st.fps st.start_time inp.endTime inp.resetTime).2.1,
   (processCategories st.category_name inp.categories).1⟩

/-- The events of one successful iteration up to and including the
`cv2.waitKey` poll (everything the iteration does before `cv2.imshow`). -/
def breakEvents (st : LoopState) (inp : IterInput) : List Event :=
  [Event.readFrame, Event.classifyCall (cvtColorBGR2RGB (flip1 inp.frame))] ++
    (processCategories st.category_name inp.categories).2.1 ++
    (fpsUpdate (st.counter + 1) st.fps st.start_time inp.endTime inp.resetTime).2.2 ++
    [Event.drawFps (fps_text (fpsAfter st inp)) (_LEFT_MARGIN, _ROW_SIZE),
     Event.pollKey inp.key]

/-- The events of one successful, non-breaking iteration. -/
def nextEvents (st : LoopState) (inp : IterInput) : List Event :=
  breakEvents st inp ++ [Event.imshow]

/-- An iteration input that keeps the loop running: the read succeeds, the
cancel key is not pressed, and every returned index is recognized. -/
def tame (inp : IterInput) : Prop :=
  inp.readOk = true ∧ inp.key ≠ 27 ∧ ∀ c ∈ inp.categories, c.index ≤ 2

instance (inp : IterInput) : Decidable (tame inp) := by
  unfold tame
  infer_instance

/-- A benign concrete iteration input: read succeeds, no categories, no key
pressed. -/
def quietInput : IterInput := ⟨true, [[⟨1, 2, 3⟩]], [], 1, 1, 0⟩

/-- Ten benign iterations: exactly one completed FPS window. -/
def tameRun : List IterInput := List.replicate 10 quietInput

/-- A concrete iteration input pressing the cancel key (ESC, code 27). -/
def cancelInput : IterInput := ⟨true, [[⟨4, 5, 6⟩]], [], 3, 4, 27⟩

/-- A concrete iteration input whose frame read fails. -/
def badReadInput : IterInput := ⟨false, [], [], 0, 0, 0⟩

/-- A concrete iteration input returning a single category with the
unrecognized index 5. -/
def unknownCatInput : IterInput := ⟨true, [[⟨7, 8, 9⟩]], [⟨5, 1 / 2⟩], 1, 1, 0⟩

/-- A concrete iteration input returning one recognized category
(index 0, score 0.9). -/
def hpCatInput : IterInput := ⟨true, [[⟨7, 8, 9⟩]], [⟨0, 9 / 10⟩], 1, 2, 0⟩

/-- A concrete iteration input with empty categories and the cancel key. -/
def emptyCatCancelInput : IterInput := ⟨true, [[⟨2, 4, 6⟩]], [], 7, 8, 27⟩

/-! ## Helper lemmas -/

/-- `ratFloor` agrees with the mathematical floor. -/
theorem ratFloor_eq (q : ℚ) : ratFloor q = Int.floor q := (Rat.floor_def).symm

/-- A recognized index resolves to the fixed label. -/
theorem categoryNameUpdate_known (i : ℕ) (hi : i ≤ 2) (prev : Option String) :
    categoryNameUpdate i prev = some (labelOf i) := by
  interval_cases i <;> simp [categoryNameUpdate, labelOf]

/-- With only recognized indices the for-loop body never raises. -/
theorem processCategories_known (name : Option String) (cats : List Category)
    (h : ∀ c ∈ cats, c.index ≤ 2) :
    (processCategories name cats).2.2 = false := by
  induction cats generalizing name with
  | nil => rfl
  | cons c rest ih =>
    have hc : c.index ≤ 2 := h c (List.mem_cons_self c rest)
    rw [processCategories, categoryNameUpdate_known c.index hc name]
    exact ih (some (labelOf c.index)) fun d hd => h d (List.mem_cons_of_mem c hd)

/-- Every event emitted by the for-loop over categories is a result event
(draw the result text, print the duration, or print the result text). -/
theorem processCategories_events (name : Option String) (cats : List Category) :
    ∀ e ∈ (processCategories name cats).2.1, isResultEvent e = true := by
  induction cats generalizing name with
  | nil => intro e he; cases he
  | cons c rest ih =>
    intro e he
    rw [processCategories] at he
    cases hup : categoryNameUpdate c.index name with
    | none => rw [hup] at he; cases he
    | some n =>
      rw [hup] at he
      simp only [List.mem_cons] at he
      rcases he with h1 | h1 | h1 | h1
      · rw [h1]; rfl
      · rw [h1]; rfl
      · rw [h1]; rfl
      · exact ih (some n) e h1

/-- The for-loop over categories never records an FPS recomputation. -/
theorem processCategories_no_recompute (name : Option String)
    (cats : List Category) :
    ((processCategories name cats).2.1).countP isFpsRecompute = 0 := by
  rw [List.countP_eq_zero]
  intro e he
  have := processCategories_events name cats e he
  cases e <;> simp_all [isResultEvent, isFpsRecompute]

/-- The for-loop over categories never draws the FPS overlay. -/
theorem processCategories_no_drawFps (name : Option String)
    (cats : List Category) :
    ((processCategories name cats).2.1).filter isDrawFps = [] := by
  rw [List.filter_eq_nil_iff]
  intro e he
  have := processCategories_events name cats e he
  cases e <;> simp_all [isResultEvent, isDrawFps]

/-- The for-loop over categories never calls the classifier. -/
theorem processCategories_no_classify (name : Option String)
    (cats : List Category) :
    classifyInputs (processCategories name cats).2.1 = [] := by
  rw [classifyInputs, List.filterMap_eq_nil_iff]
  intro e he
  have := processCategories_events name cats e he
  cases e <;> simp_all [isResultEvent]

/-- With empty categories the for-loop does nothing. -/
theorem processCategories_nil (name : Option String) :
    processCategories name [] = (name, [], false) := rfl

/-- A successful, crash-free, non-breaking iteration takes the ordinary
`next` branch, with state and events given by `nextState` and
`nextEvents`. -/
theorem step_next (st : LoopState) (inp : IterInput)
    (hr : inp.readOk = true)
    (hc : (processCategories st.category_name inp.categories).2.2 = false)
    (hk : inp.key ≠ 27) :
    step st inp = StepResult.next (nextState st inp) (nextEvents st inp) := by
  rw [step]
  rw [hr]
  simp only [Bool.true_eq_false, if_false]
  rw [hc]
  simp only [Bool.false_eq_true, if_false]
  rw [if_neg hk]
  simp [nextState, nextEvents, breakEvents, fpsAfter, List.append_assoc]

/-- A tame input makes `step` take the ordinary `next` branch. -/
theorem step_tame (st : LoopState) (inp : IterInput) (h : tame inp) :
    step st inp = StepResult.next (nextState st inp) (nextEvents st inp) :=
  step_next st inp h.1
    (processCategories_known st.category_name inp.categories h.2.2) h.2.1

/-- Unfolding `runLoop` over a `next` step. -/
theorem trace_runLoop_next (st st1 : LoopState) (inp : IterInput)
    (l : List IterInput) (evs : List Event)
    (h : step st inp = StepResult.next st1 evs) :
    trace (runLoop st (inp :: l)) = evs ++ trace (runLoop st1 l) := by
  simp only [runLoop, h]
  cases runLoop st1 l <;> rfl

/-- The FPS recomputations of one tame iteration: one when the incremented
counter is a multiple of 10, none otherwise. -/
theorem nextEvents_recompute (st : LoopState) (inp : IterInput) :
    (nextEvents st inp).countP isFpsRecompute =
      if (st.counter + 1) % 10 = 0 then 1 else 0 := by
  rw [nextEvents, breakEvents]
  simp only [List.countP_append]
  rw [processCategories_no_recompute]
  rw [fpsUpdate]
  by_cases h : (st.counter + 1) % _FPS_AVERAGE_FRAME_COUNT = 0
  · rw [if_pos h]
    simp only [_FPS_AVERAGE_FRAME_COUNT] at h
    rw [if_pos h]
    simp [List.countP, List.countP.go, isFpsRecompute]
  · rw [if_neg h]
    simp only [_FPS_AVERAGE_FRAME_COUNT] at h
    rw [if_neg h]
    simp [List.countP, List.countP.go, isFpsRecompute]

/-- Over tame inputs, the number of FPS recomputations recorded by the loop
started at counter `st.counter` is the number of multiples of 10 in the
window `(st.counter, st.counter + l.length]`. -/
theorem runLoop_recompute_count (l : List IterInput) (st : LoopState)
    (h : ∀ inp ∈ l, tame inp) :
    recomputeCount (trace (runLoop st l)) + st.counter / 10 =
      (st.counter + l.length) / 10 := by
  induction l generalizing st with
  | nil =>
    simp [runLoop, trace, recomputeCount, List.countP, List.countP.go,
      isFpsRecompute]
  | cons inp rest ih =>
    have htame : tame inp := h inp (List.mem_cons_self inp rest)
    have hstep := step_tame st inp htame
    rw [recomputeCount, trace_runLoop_next st (nextState st inp) inp rest
      (nextEvents st inp) hstep]
    rw [List.countP_append]
    have hrest := ih (nextState st inp) fun d hd => h d (List.mem_cons_of_mem inp hd)
    rw [recomputeCount] at hrest
    have hcounter : (nextState st inp).counter = st.counter + 1 := rfl
    rw [hcounter] at hrest
    rw [nextEvents_recompute]
    have hsucc := Nat.succ_div st.counter 10
    have hmono : (st.counter + 1) / 10 ≤ (st.counter + 1 + rest.length) / 10 :=
      Nat.div_le_div_right (Nat.le_add_right _ _)
    by_cases hd : (st.counter + 1) % 10 = 0
    · have hdvd : (10 : ℕ) ∣ st.counter + 1 := Nat.dvd_of_mod_eq_zero hd
      rw [if_pos hdvd] at hsucc
      rw [if_pos hd]
      simp only [List.length_cons]
      omega
    · have hdvd : ¬((10 : ℕ) ∣ st.counter + 1) := by omega
      rw [if_neg hdvd] at hsucc
      rw [if_neg hd]
      simp only [List.length_cons]
      omega

/-- A failed read makes the iteration exit fatally at once, after the read
event only. -/
theorem step_fatal (st : LoopState) (inp : IterInput) (h : inp.readOk = false) :
    step st inp = StepResult.fatalExit webcamError [Event.readFrame] := by
  rw [step, if_pos h]

/-- A failed read at the head of the schedule aborts the whole run with the
fixed error message; the rest of the schedule is never consumed. -/
theorem runLoop_fatal (st : LoopState) (inp : IterInput) (l : List IterInput)
    (h : inp.readOk = false) :
    runLoop st (inp :: l) = RunResult.fatal webcamError [Event.readFrame] := by
  simp only [runLoop, step_fatal st inp h]

/-- A successful, crash-free iteration with the ESC key pressed breaks out
of the loop, emitting exactly the events up to the key poll. -/
theorem step_break (st : LoopState) (inp : IterInput)
    (hr : inp.readOk = true)
    (hc : (processCategories st.category_name inp.categories).2.2 = false)
    (hk : inp.key = 27) :
    step st inp = StepResult.breakLoop (nextState st inp) (breakEvents st inp) := by
  rw [step]
  rw [hr]
  simp only [Bool.true_eq_false, if_false]
  rw [hc]
  simp only [Bool.false_eq_true, if_false]
  rw [if_pos hk]
  simp [nextState, breakEvents, fpsAfter, List.append_assoc]

/-- A run whose head iteration breaks on the ESC key exits cleanly, running
the teardown after the break. -/
theorem runLoop_break (st : LoopState) (inp : IterInput) (l : List IterInput)
    (hr : inp.readOk = true)
    (hc : (processCategories st.category_name inp.categories).2.2 = false)
    (hk : inp.key = 27) :
    runLoop st (inp :: l) = RunResult.cleanExit
      (breakEvents st inp ++ [Event.release, Event.destroyAllWindows]) := by
  simp only [runLoop, step_break st inp hr hc hk]

/-- An iteration whose category loop raises `UnboundLocalError` crashes the
process right there: read, classify, then the partial category events. -/
theorem step_crash (st : LoopState) (inp : IterInput)
    (hr : inp.readOk = true)
    (hc : (processCategories st.category_name inp.categories).2.2 = true) :
    step st inp = StepResult.crashed
      ([Event.readFrame, Event.classifyCall (cvtColorBGR2RGB (flip1 inp.frame))] ++
        (processCategories st.category_name inp.categories).2.1) := by
  rw [step]
  rw [hr]
  simp only [Bool.true_eq_false, if_false]
  rw [hc]
  simp

/-- Before the first 10-frame window completes, every FPS overlay drawn
shows the initial value 0. -/
theorem drawFps_zero_window (l : List IterInput) (st : LoopState)
    (h : ∀ inp ∈ l, tame inp) (hc : st.counter + l.length < 10)
    (hf : st.fps = 0) :
    (trace (runLoop st l)).filter isDrawFps =
      List.replicate l.length
        (Event.drawFps (fps_text 0) (_LEFT_MARGIN, _ROW_SIZE)) := by
  induction l generalizing st with
  | nil => rfl
  | cons inp rest ih =>
    have htame := h inp (List.mem_cons_self inp rest)
    rw [trace_runLoop_next st (nextState st inp) inp rest (nextEvents st inp)
      (step_tame st inp htame)]
    have hlen : rest.length + 1 = (inp :: rest).length := rfl
    have hne : ¬((st.counter + 1) % 10 = 0) := by
      have : (st.counter + 1) % 10 = st.counter + 1 :=
        Nat.mod_eq_of_lt (by simp only [List.length_cons] at hc; omega)
      omega
    have hfps : fpsUpdate (st.counter + 1) st.fps st.start_time inp.endTime
        inp.resetTime = (st.fps, st.start_time, []) := by
      rw [fpsUpdate, if_neg]
      simpa [_FPS_AVERAGE_FRAME_COUNT] using hne
    have hafter : fpsAfter st inp = 0 := by rw [fpsAfter, hfps, hf]
    rw [List.filter_append, nextEvents, breakEvents]
    simp only [List.filter_append, processCategories_no_drawFps, hfps, hafter]
    have hrest := ih (nextState st inp) (fun d hd => h d (List.mem_cons_of_mem inp hd))
      (by simp only [nextState, List.length_cons] at hc ⊢; omega)
      (by simp only [nextState]; rw [hfps]; exact hf)
    rw [hrest]
    simp [isDrawFps, List.replicate_succ]

/-- Every event emitted by the FPS update is an `fpsRecompute`. -/
theorem fpsUpdate_events (c : ℕ) (fps s e r : ℚ) :
    ∀ ev ∈ (fpsUpdate c fps s e r).2.2, isFpsRecompute ev = true := by
  rw [fpsUpdate]
  split_ifs <;> simp [isFpsRecompute]

/-- `classifyInputs` distributes over append. -/
theorem classifyInputs_append (a b : List Event) :
    classifyInputs (a ++ b) = classifyInputs a ++ classifyInputs b := by
  simp [classifyInputs]

/-- The FPS update never calls the classifier. -/
theorem classifyInputs_fpsUpdate (c : ℕ) (fps s e r : ℚ) :
    classifyInputs (fpsUpdate c fps s e r).2.2 = [] := by
  rw [fpsUpdate]
  split_ifs <;> simp [classifyInputs]

/-- The events of one iteration up to the key poll contain exactly one
classifier call, receiving the flipped-then-converted frame. -/
theorem classifyInputs_breakEvents (st : LoopState) (inp : IterInput) :
    classifyInputs (breakEvents st inp) = [cvtColorBGR2RGB (flip1 inp.frame)] := by
  rw [breakEvents]
  simp only [classifyInputs_append, classifyInputs_fpsUpdate,
    processCategories_no_classify]
  simp [classifyInputs]

/-- The events of one iteration up to the key poll contain no `imshow`. -/
theorem breakEvents_no_imshow (st : LoopState) (inp : IterInput) :
    (breakEvents st inp).countP isImshow = 0 := by
  rw [breakEvents]
  simp only [List.countP_append]
  have h1 : ((processCategories st.category_name inp.categories).2.1).countP
      isImshow = 0 := by
    rw [List.countP_eq_zero]
    intro e he
    have := processCategories_events st.category_name inp.categories e he
    cases e <;> simp_all [isResultEvent, isImshow]
  have h2 : ((fpsUpdate (st.counter + 1) st.fps st.start_time inp.endTime
      inp.resetTime).2.2).countP isImshow = 0 := by
    rw [List.countP_eq_zero]
    intro e he
    have := fpsUpdate_events (st.counter + 1) st.fps st.start_time inp.endTime
      inp.resetTime e he
    cases e <;> simp_all [isFpsRecompute, isImshow]
  rw [h1, h2]
  simp [List.countP, List.countP.go, isImshow]

/-- The events of one iteration up to the key poll end with the key poll. -/
theorem breakEvents_poll_last (st : LoopState) (inp : IterInput) :
    ∃ pre, breakEvents st inp = pre ++ [Event.pollKey inp.key] := by
  refine ⟨[Event.readFrame,
      Event.classifyCall (cvtColorBGR2RGB (flip1 inp.frame))] ++
    (processCategories st.category_name inp.categories).2.1 ++
    (fpsUpdate (st.counter + 1) st.fps st.start_time inp.endTime
      inp.resetTime).2.2 ++
    [Event.drawFps (fps_text (fpsAfter st inp)) (_LEFT_MARGIN, _ROW_SIZE)], ?_⟩
  rw [breakEvents]
  simp [List.append_assoc]

/-- An index outside 0, 1, 2 matches none of the branches of the label
chain. -/
theorem categoryNameUpdate_unknown (i : ℕ) (hi : 2 < i) (prev : Option String) :
    categoryNameUpdate i prev = prev := by
  rw [categoryNameUpdate, if_neg (by omega), if_neg (by omega), if_neg (by omega)]

/-- `pyRoundInt` never rounds above an integer upper bound of its
argument. -/
theorem pyRoundInt_le (x : ℚ) (b : ℤ) (h : x ≤ b) : pyRoundInt x ≤ b := by
  have hfl : Int.floor x ≤ b := by
    have h2 : (Int.floor x : ℚ) ≤ (b : ℚ) := le_trans (Int.floor_le x) h
    exact_mod_cast h2
  rw [pyRoundInt, ratFloor_eq]
  split_ifs with h1 h2 h3
  · exact hfl
  · have hlt : (Int.floor x : ℚ) < (b : ℚ) := by linarith
    have : Int.floor x < b := by exact_mod_cast hlt
    omega
  · exact hfl
  · have hge : (1 : ℚ) / 2 ≤ x - Int.floor x := not_lt.mp h1
    have hlt : (Int.floor x : ℚ) < (b : ℚ) := by linarith
    have : Int.floor x < b := by exact_mod_cast hlt
    omega

/-- `pyRoundInt` never rounds below an integer lower bound of its
argument. -/
theorem pyRoundInt_ge (x : ℚ) (a : ℤ) (h : (a : ℚ) ≤ x) : a ≤ pyRoundInt x := by
  have hfl : a ≤ Int.floor x := Int.le_floor.mpr h
  rw [pyRoundInt, ratFloor_eq]
  split_ifs <;> omega

/-- The FPS update events vanish under any predicate rejecting
`fpsRecompute`. -/
theorem fpsUpdate_countP (c : ℕ) (fps s e r : ℚ) (p : Event → Bool)
    (hp : ∀ x : ℚ, p (Event.fpsRecompute x) = false) :
    ((fpsUpdate c fps s e r).2.2).countP p = 0 := by
  rw [fpsUpdate]
  split_ifs <;> simp [hp]

/-! ## Claim theorems -/

/-- C1: over any run of the capture loop processing `l.length` frames,
`current_fps` is recomputed exactly `⌊l.length / 10⌋` times; it is
recomputed only on iterations whose incremented frame counter is a
multiple of 10, where it becomes `10 / elapsed` for the elapsed time since
the window start, which is then reset; on every other iteration the
previous `fps` value and window start are reused; and before the first
10-frame window completes every FPS overlay drawn shows the value 0. -/
theorem c1_fps_recompute_policy (t0 : ℚ) (l : List IterInput)
    (h : ∀ inp ∈ l, tame inp) :
    recomputeCount (trace (runLoop (initState t0) l)) = l.length / 10 ∧
    (∀ st inp, tame inp →
      step st inp = StepResult.next (nextState st inp) (nextEvents st inp) ∧
      (nextState st inp).counter = st.counter + 1 ∧
      ((st.counter + 1) % 10 = 0 →
        (nextState st inp).fps = 10 / (inp.endTime - st.start_time) ∧
        (nextState st inp).start_time = inp.resetTime ∧
        (nextEvents st inp).countP isFpsRecompute = 1) ∧
      ((st.counter + 1) % 10 ≠ 0 →
        (nextState st inp).fps = st.fps ∧
        (nextState st inp).start_time = st.start_time ∧
        (nextEvents st inp).countP isFpsRecompute = 0)) ∧
    (l.length < 10 →
      (trace (runLoop (initState t0) l)).filter isDrawFps =
        List.replicate l.length
          (Event.drawFps (fps_text 0) (_LEFT_MARGIN, _ROW_SIZE))) := by
  refine ⟨?_, ?_, ?_⟩
  · have hcount := runLoop_recompute_count l (initState t0) h
    simpa [initState, recomputeCount] using hcount
  · intro st inp ht
    refine ⟨step_tame st inp ht, rfl, ?_, ?_⟩
    · intro hm
      refine ⟨?_, ?_, ?_⟩
      · simp [nextState, fpsUpdate, _FPS_AVERAGE_FRAME_COUNT, hm]
      · simp [nextState, fpsUpdate, _FPS_AVERAGE_FRAME_COUNT, hm]
      · rw [nextEvents_recompute, if_pos hm]
    · intro hm
      refine ⟨?_, ?_, ?_⟩
      · simp [nextState, fpsUpdate, _FPS_AVERAGE_FRAME_COUNT, hm]
      · simp [nextState, fpsUpdate, _FPS_AVERAGE_FRAME_COUNT, hm]
      · rw [nextEvents_recompute, if_neg hm]
  · intro hlen
    exact drawFps_zero_window l (initState t0) h (by simpa [initState] using hlen) rfl

/-- Witness for C1: ten tame iterations yield exactly one recomputation. -/
theorem c1_fps_recompute_policy_witness :
    (∀ inp ∈ tameRun, tame inp) ∧
    recomputeCount (trace (runLoop (initState 0) tameRun)) = tameRun.length / 10 ∧
    tameRun.length / 10 = 1 := by
  have h : ∀ inp ∈ tameRun, tame inp := by decide
  exact ⟨h, (c1_fps_recompute_policy 0 tameRun h).1, by decide⟩

/-- C5: a failed frame read on any iteration terminates the process
immediately with the fixed user-visible error message and exit code 1,
without calling the classifier on that iteration and without consuming any
further input (no retry); a clean cancellation via the ESC key exits with
code 0. -/
theorem c5_read_failure_fatal (st : LoopState) (inp : IterInput)
    (l : List IterInput) :
    (inp.readOk = false →
      runLoop st (inp :: l) = RunResult.fatal webcamError [Event.readFrame] ∧
      exitCode (runLoop st (inp :: l)) = 1 ∧
      classifyInputs (trace (runLoop st (inp :: l))) = []) ∧
    (inp.readOk = true → inp.key = 27 →
      (processCategories st.category_name inp.categories).2.2 = false →
      exitCode (runLoop st (inp :: l)) = 0) := by
  constructor
  · intro hr
    have hrun := runLoop_fatal st inp l hr
    refine ⟨hrun, ?_, ?_⟩
    · rw [hrun]; rfl
    · rw [hrun]; rfl
  · intro hr hk hc
    rw [runLoop_break st inp l hr hc hk]
    rfl

/-- Witness for C5: a failing read aborts with the error message; a
cancelled run exits with code 0. -/
theorem c5_read_failure_fatal_witness :
    runLoop (initState 0) [badReadInput] =
      RunResult.fatal webcamError [Event.readFrame] ∧
    exitCode (runLoop (initState 0) [cancelInput]) = 0 :=
  ⟨((c5_read_failure_fatal (initState 0) badReadInput []).1 rfl).1,
   (c5_read_failure_fatal (initState 0) cancelInput []).2 rfl rfl rfl⟩

/-- C8: the displayed percentage is `round(s, 2) * 100`, and for any raw
confidence score in [0, 1] it lies within [0, 100]. -/
theorem c8_score_percentage (s : ℚ) (h0 : 0 ≤ s) (h1 : s ≤ 1) :
    score_persentase s = pyRound2 s * 100 ∧
    0 ≤ score_persentase s ∧ score_persentase s ≤ 100 := by
  have hval : score_persentase s = (pyRoundInt (s * 100) : ℚ) := by
    rw [score_persentase, pyRound2, div_mul_cancel₀]
    norm_num
  refine ⟨rfl, ?_, ?_⟩
  · rw [hval]
    have hlo : (0 : ℤ) ≤ pyRoundInt (s * 100) := by
      refine pyRoundInt_ge (s * 100) 0 ?_
      push_cast
      nlinarith
    exact_mod_cast hlo
  · rw [hval]
    have hhi : pyRoundInt (s * 100) ≤ (100 : ℤ) := by
      refine pyRoundInt_le (s * 100) 100 ?_
      push_cast
      nlinarith
    exact_mod_cast hhi

/-- Witness for C8: the percentage for score 1/2 is within bounds. -/
theorem c8_score_percentage_witness :
    0 ≤ score_persentase (1 / 2) ∧ score_persentase (1 / 2) ≤ 100 :=
  ⟨(c8_score_percentage (1 / 2) (by norm_num) (by norm_num)).2.1,
   (c8_score_percentage (1 / 2) (by norm_num) (by norm_num)).2.2⟩

/-- C9: on every successfully read frame, the classifier is called exactly
once, and the image it receives is the horizontally mirrored frame
converted from BGR to RGB after the flip; it never receives the unflipped
original capture. -/
theorem c9_classifier_sees_flipped (st : LoopState) (inp : IterInput)
    (hr : inp.readOk = true) :
    classifyInputs (stepEvents (step st inp)) =
      [cvtColorBGR2RGB (flip1 inp.frame)] := by
  by_cases hc : (processCategories st.category_name inp.categories).2.2 = true
  · rw [step_crash st inp hr hc, stepEvents]
    rw [classifyInputs_append, processCategories_no_classify]
    simp [classifyInputs]
  · have hc2 : (processCategories st.category_name inp.categories).2.2 = false :=
      Bool.not_eq_true _ ▸ Bool.eq_false_iff.mpr hc
    by_cases hk : inp.key = 27
    · rw [step_break st inp hr hc2 hk, stepEvents, classifyInputs_breakEvents]
    · rw [step_next st inp hr hc2 hk, stepEvents, nextEvents,
        classifyInputs_append, classifyInputs_breakEvents]
      simp [classifyInputs]

/-- Witness for C9: on the sample frame the classifier receives the
mirrored, channel-swapped image. -/
theorem c9_classifier_sees_flipped_witness :
    classifyInputs (stepEvents (step (initState 0) quietInput)) =
      [cvtColorBGR2RGB (flip1 quietInput.frame)] ∧
    cvtColorBGR2RGB (flip1 quietInput.frame) = [[⟨3, 2, 1⟩]] :=
  ⟨c9_classifier_sees_flipped (initState 0) quietInput rfl, rfl⟩

/-- C4: on every iteration that reaches the overlay code, exactly one FPS
overlay is drawn, at the fixed top-left position `(_LEFT_MARGIN, _ROW_SIZE)`,
with text `str(int(fps)) ++ " fps / " ++ str(ms) ++ " ms"`; the
milliseconds part satisfies `ms = round(1 / fps * 1000, 2)` whenever
`fps > 0` and `ms = 0` whenever `fps = 0`. -/
theorem c4_fps_overlay (st : LoopState) (inp : IterInput) (fps : ℚ)
    (hr : inp.readOk = true)
    (hc : (processCategories st.category_name inp.categories).2.2 = false) :
    (stepEvents (step st inp)).filter isDrawFps =
      [Event.drawFps (fps_text (fpsAfter st inp)) (_LEFT_MARGIN, _ROW_SIZE)] ∧
    fps_text fps = toString (pyInt fps) ++ " fps / " ++ fps_ms_str fps ++ " ms" ∧
    (fps > 0 → fps_ms fps = pyRound2 (1 / fps * 1000) ∧
      fps_ms_str fps = pyFloatStr (fps_ms fps)) ∧
    (fps = 0 → fps_ms fps = 0 ∧ fps_ms_str fps = "0") := by
  have hbreak : (breakEvents st inp).filter isDrawFps =
      [Event.drawFps (fps_text (fpsAfter st inp)) (_LEFT_MARGIN, _ROW_SIZE)] := by
    rw [breakEvents]
    simp only [List.filter_append, processCategories_no_drawFps]
    have hfp : ((fpsUpdate (st.counter + 1) st.fps st.start_time inp.endTime
        inp.resetTime).2.2).filter isDrawFps = [] := by
      rw [List.filter_eq_nil_iff]
      intro e he
      have := fpsUpdate_events (st.counter + 1) st.fps st.start_time inp.endTime
        inp.resetTime e he
      cases e <;> simp_all [isFpsRecompute, isDrawFps]
    rw [hfp]
    simp [isDrawFps]
  refine ⟨?_, rfl, ?_, ?_⟩
  · by_cases hk : inp.key = 27
    · rw [step_break st inp hr hc hk, stepEvents, hbreak]
    · rw [step_next st inp hr hc hk, stepEvents, nextEvents, List.filter_append,
        hbreak]
      simp [isDrawFps]
  · intro hp
    constructor
    · rw [fps_ms, fps_ms_raw, if_pos hp]
    · rw [fps_ms_str, if_pos hp]
  · intro h0
    subst h0
    have hraw : fps_ms_raw 0 = 0 := by rw [fps_ms_raw]; norm_num
    have hms : fps_ms 0 = 0 := by
      rw [fps_ms, hraw, pyRound2]
      have hz : pyRoundInt (0 * 100) = 0 := by
        rw [pyRoundInt, ratFloor_eq]
        norm_num
      rw [hz]
      norm_num
    exact ⟨hms, by rw [fps_ms_str]; norm_num⟩

/-- Witness for C4: instances of the milliseconds formula at fps 2 and
fps 0, and the single overlay drawn on a concrete iteration. -/
theorem c4_fps_overlay_witness :
    fps_ms 2 = pyRound2 (1 / 2 * 1000) ∧ fps_ms 0 = 0 ∧
    (stepEvents (step (initState 0) quietInput)).filter isDrawFps =
      [Event.drawFps (fps_text (fpsAfter (initState 0) quietInput))
        (_LEFT_MARGIN, _ROW_SIZE)] :=
  ⟨((c4_fps_overlay (initState 0) quietInput 2 rfl rfl).2.2.1 (by norm_num)).1,
   ((c4_fps_overlay (initState 0) quietInput 0 rfl rfl).2.2.2 rfl).1,
   (c4_fps_overlay (initState 0) quietInput 0 rfl rfl).1⟩

/-- C2 (counterexample): with a fresh state, a single result with the
unrecognized index 5 crashes the run with an `UnboundLocalError` model —
an error is raised and no overlay text is drawn, contradicting the claim
that the lookup is silent and the overlay is still drawn. -/
theorem c2_counterexample :
    runLoop (initState 0) [unknownCatInput] =
      RunResult.crashed [Event.readFrame, Event.classifyCall [[⟨9, 8, 7⟩]]] ∧
    (trace (runLoop (initState 0) [unknownCatInput])).countP isDrawResult = 0 ∧
    exitCode (runLoop (initState 0) [unknownCatInput]) = 1 := by
  refine ⟨by decide, by decide, by decide⟩

/-- C2 (amended): a result with an index outside 0, 1, 2 leaves
`category_name` untouched; if no earlier result ever set it, the reference
raises an `UnboundLocalError` that crashes the process before anything is
drawn, while if an earlier recognized index set it, the stale label is
silently reused, with the overlay drawn and no error. -/
theorem c2_unknown_index (st : LoopState) (inp : IterInput) (c : Category)
    (rest : List Category) (name : String)
    (hr : inp.readOk = true) (hcats : inp.categories = c :: rest)
    (hidx : 2 < c.index) :
    (st.category_name = none →
      step st inp = StepResult.crashed
        [Event.readFrame,
         Event.classifyCall (cvtColorBGR2RGB (flip1 inp.frame))] ∧
      exitCode (runLoop st [inp]) = 1) ∧
    (∀ s : ℚ, processCategories (some name) [⟨c.index, s⟩] =
      (some name,
       [Event.drawResult (result_text name s) (50, 450),
        Event.printInference, Event.printResult (result_text name s)],
       false)) := by
  constructor
  · intro hname
    have hpc : processCategories st.category_name inp.categories =
        (none, [], true) := by
      rw [hname, hcats, processCategories,
        categoryNameUpdate_unknown c.index hidx none]
    have hstep := step_crash st inp hr (by rw [hpc])
    rw [hpc] at hstep
    simp only [List.append_nil] at hstep
    refine ⟨hstep, ?_⟩
    rw [runLoop, hstep]
    rfl
  · intro s
    rw [processCategories, categoryNameUpdate_unknown c.index hidx (some name)]
    rfl

/-- Witness for C2 (amended): concrete crash on a fresh state, and
concrete stale-label reuse. -/
theorem c2_unknown_index_witness :
    step (initState 0) unknownCatInput = StepResult.crashed
      [Event.readFrame, Event.classifyCall [[⟨9, 8, 7⟩]]] ∧
    processCategories (some "hp") [⟨5, 1 / 2⟩] =
      (some "hp",
       [Event.drawResult (result_text "hp" (1 / 2)) (50, 450),
        Event.printInference, Event.printResult (result_text "hp" (1 / 2))],
       false) :=
  ⟨((c2_unknown_index (initState 0) unknownCatInput ⟨5, 1 / 2⟩ [] "hp"
      rfl rfl (by decide)).1 rfl).1,
   (c2_unknown_index (initState 0) unknownCatInput ⟨5, 1 / 2⟩ [] "hp"
      rfl rfl (by decide)).2 (1 / 2)⟩

/-- C3 (counterexample): the overlay text actually drawn for index 0 with
score 0.9 is `" Classification Result >> hp 90.0%"` — with a leading space
taken from the source literal `' Classification Result >> '` — and is
therefore not equal to the claimed string
`"Classification Result >> hp 90.0%"`. -/
theorem c3_counterexample :
    result_text "hp" (9 / 10) = " Classification Result >> hp 90.0%" ∧
    result_text "hp" (9 / 10) ≠ "Classification Result >> hp 90.0%" ∧
    (stepEvents (step (initState 0) hpCatInput)).countP isDrawResult = 1 ∧
    Event.drawResult (result_text "hp" (9 / 10)) (50, 450) ∈
      stepEvents (step (initState 0) hpCatInput) := by
  have hres : result_text "hp" (9 / 10) = " Classification Result >> hp 90.0%" := by
    have h : score_persentase (9 / 10) = 90 := by
      have h1 : (9 / 10 : ℚ) * 100 = 90 := by norm_num
      rw [score_persentase, pyRound2, h1]
      have h2 : pyRoundInt 90 = 90 := by
        rw [pyRoundInt, ratFloor_eq]
        norm_num
      rw [h2]
      norm_num
    rw [result_text, h]
    have hf : pyFloatStr 90 = "90.0" := by
      rw [pyFloatStr]
      have h3 : ratFloor ((90 : ℚ) * 100) = 9000 := by
        rw [ratFloor_eq]
        norm_num
      simp only [h3]
      norm_num
      rfl
    rw [hf]
    rfl
  have hstep : stepEvents (step (initState 0) hpCatInput) =
      [Event.readFrame, Event.classifyCall [[⟨9, 8, 7⟩]],
       Event.drawResult (result_text "hp" (9 / 10)) (50, 450),
       Event.printInference, Event.printResult (result_text "hp" (9 / 10)),
       Event.drawFps (fps_text 0) (_LEFT_MARGIN, _ROW_SIZE), Event.pollKey 0,
       Event.imshow] := by
    rw [step_next (initState 0) hpCatInput rfl rfl (by decide), stepEvents,
      nextEvents, breakEvents]
    norm_num [processCategories, categoryNameUpdate, fpsUpdate, fpsAfter,
      initState, hpCatInput, _FPS_AVERAGE_FRAME_COUNT, cvtColorBGR2RGB, flip1]
  refine ⟨hres, ?_, by decide, ?_⟩
  · rw [hres]
    decide
  · rw [hstep]
    simp

/-- C3 (amended): for every classification result with a recognized index
and score `s`, the overlay text drawn at the fixed position (50, 450) —
and likewise printed — is `" Classification Result >> {label} {p}%"`,
identical to the claimed format except for the leading space, where the
label is hp/mouse/diki for indices 0/1/2 and `p` renders
`round(s, 2) * 100`, the score rounded to 2 decimals before multiplying
by 100. -/
theorem c3_result_format (name : Option String) (cats : List Category)
    (h : ∀ c ∈ cats, c.index ≤ 2) :
    (processCategories name cats).2.1 =
      cats.flatMap (fun c =>
        [Event.drawResult (" Classification Result >> " ++ labelOf c.index ++
            " " ++ pyFloatStr (pyRound2 c.score * 100) ++ "%") (50, 450),
         Event.printInference,
         Event.printResult (" Classification Result >> " ++ labelOf c.index ++
            " " ++ pyFloatStr (pyRound2 c.score * 100) ++ "%")]) ∧
    labelOf 0 = "hp" ∧ labelOf 1 = "mouse" ∧ labelOf 2 = "diki" := by
  refine ⟨?_, rfl, rfl, rfl⟩
  induction cats generalizing name with
  | nil => rfl
  | cons c rest ih =>
    have hc : c.index ≤ 2 := h c (List.mem_cons_self c rest)
    rw [processCategories, categoryNameUpdate_known c.index hc name]
    simp only [List.flatMap_cons]
    rw [ih (some (labelOf c.index)) fun d hd => h d (List.mem_cons_of_mem c hd)]
    simp [result_text, score_persentase]

/-- Witness for C3 (amended): the single drawn and printed text for a
concrete recognized result. -/
theorem c3_result_format_witness :
    (processCategories none [(⟨0, 9 / 10⟩ : Category)]).2.1 =
      [Event.drawResult (" Classification Result >> " ++ labelOf 0 ++ " " ++
          pyFloatStr (pyRound2 (9 / 10) * 100) ++ "%") (50, 450),
       Event.printInference,
       Event.printResult (" Classification Result >> " ++ labelOf 0 ++ " " ++
          pyFloatStr (pyRound2 (9 / 10) * 100) ++ "%")] := by
  have h := (c3_result_format none [⟨0, 9 / 10⟩] (by decide)).1
  simpa using h

/-- C6 (counterexample): pressing ESC on the first iteration exits the
loop cleanly, yet the trace contains no `imshow` at all — that iteration's
annotated frame was never displayed when the loop exited, contradicting
the claimed render-before-poll order. -/
theorem c6_counterexample :
    exitCode (runLoop (initState 0) [cancelInput]) = 0 ∧
    (trace (runLoop (initState 0) [cancelInput])).countP isImshow = 0 ∧
    Event.pollKey 27 ∈ trace (runLoop (initState 0) [cancelInput]) := by
  refine ⟨by decide, by decide, by decide⟩

/-- C6 (amended): the cancellation keystroke is polled before the frame is
rendered: on a non-cancel iteration the poll event immediately precedes
the `imshow`, and on the iteration where ESC is pressed the loop exits
without ever displaying that iteration's annotated frame. -/
theorem c6_poll_before_display (st : LoopState) (inp : IterInput)
    (hr : inp.readOk = true)
    (hc : (processCategories st.category_name inp.categories).2.2 = false) :
    (inp.key = 27 →
      step st inp = StepResult.breakLoop (nextState st inp) (breakEvents st inp) ∧
      (stepEvents (step st inp)).countP isImshow = 0 ∧
      ∃ pre, stepEvents (step st inp) = pre ++ [Event.pollKey 27]) ∧
    (inp.key ≠ 27 →
      ∃ pre, stepEvents (step st inp) =
        pre ++ [Event.pollKey inp.key, Event.imshow]) := by
  constructor
  · intro hk
    have hstep := step_break st inp hr hc hk
    refine ⟨hstep, ?_, ?_⟩
    · rw [hstep, stepEvents]
      exact breakEvents_no_imshow st inp
    · rw [hstep, stepEvents]
      obtain ⟨pre, hpre⟩ := breakEvents_poll_last st inp
      exact ⟨pre, by rw [hpre, hk]⟩
  · intro hk
    rw [step_next st inp hr hc hk, stepEvents, nextEvents]
    obtain ⟨pre, hpre⟩ := breakEvents_poll_last st inp
    refine ⟨pre, ?_⟩
    rw [hpre]
    simp

/-- Witness for C6 (amended): concrete cancel and non-cancel iterations. -/
theorem c6_poll_before_display_witness :
    (stepEvents (step (initState 0) cancelInput)).countP isImshow = 0 ∧
    (∃ pre, stepEvents (step (initState 0) quietInput) =
      pre ++ [Event.pollKey quietInput.key, Event.imshow]) :=
  ⟨((c6_poll_before_display (initState 0) cancelInput rfl rfl).1 rfl).2.1,
   (c6_poll_before_display (initState 0) quietInput rfl rfl).2 (by decide)⟩

/-- C7 (counterexample): a frame-read failure on the first iteration makes
the process abort with exit code 1 and a trace containing neither
`cap.release()` nor `cv2.destroyAllWindows()` — the teardown is skipped,
contradicting the claim that it runs on every loop exit. -/
theorem c7_counterexample :
    exitCode (runLoop (initState 0) [badReadInput]) = 1 ∧
    Event.release ∉ trace (runLoop (initState 0) [badReadInput]) ∧
    Event.destroyAllWindows ∉ trace (runLoop (initState 0) [badReadInput]) := by
  refine ⟨by decide, by decide, by decide⟩

/-- C7 (amended): the Frame Source release and display teardown run
exactly on the clean exits — cancellation via ESC, or the loop condition
ending the loop — while a fatal frame-read failure aborts the process via
`sys.exit` without executing either teardown call. -/
theorem c7_teardown (st : LoopState) (inp : IterInput) (l : List IterInput) :
    (inp.readOk = true →
      (processCategories st.category_name inp.categories).2.2 = false →
      inp.key = 27 →
      runLoop st (inp :: l) = RunResult.cleanExit
        (breakEvents st inp ++ [Event.release, Event.destroyAllWindows])) ∧
    runLoop st [] = RunResult.cleanExit [Event.release, Event.destroyAllWindows] ∧
    (inp.readOk = false →
      runLoop st (inp :: l) = RunResult.fatal webcamError [Event.readFrame] ∧
      Event.release ∉ trace (runLoop st (inp :: l)) ∧
      Event.destroyAllWindows ∉ trace (runLoop st (inp :: l))) := by
  refine ⟨fun hr hc hk => runLoop_break st inp l hr hc hk, rfl, fun hr => ?_⟩
  have hrun := runLoop_fatal st inp l hr
  rw [hrun]
  refine ⟨rfl, ?_, ?_⟩ <;> simp [trace]

/-- Witness for C7 (amended): a concrete cancelled run tears down, a
concrete failed-read run does not release. -/
theorem c7_teardown_witness :
    runLoop (initState 0) [cancelInput] = RunResult.cleanExit
      (breakEvents (initState 0) cancelInput ++
        [Event.release, Event.destroyAllWindows]) ∧
    Event.release ∉ trace (runLoop (initState 0) [badReadInput]) :=
  ⟨(c7_teardown (initState 0) cancelInput []).1 rfl rfl rfl,
   ((c7_teardown (initState 0) badReadInput []).2.2 rfl).2.1⟩

/-- C10 (counterexample): an iteration with zero returned categories on
which ESC is pressed still exits cleanly, but its frame is never
displayed — contradicting the claim that the frame is still displayed on
every zero-category iteration. -/
theorem c10_counterexample :
    emptyCatCancelInput.categories = [] ∧
    (stepEvents (step (initState 0) emptyCatCancelInput)).countP isImshow = 0 ∧
    exitCode (runLoop (initState 0) [emptyCatCancelInput]) = 0 := by
  refine ⟨rfl, by decide, by decide⟩

/-- C10 (amended): on an iteration whose classifier output has zero
categories, no result text is drawn and no inference-duration line is
printed, while the frame counter still increments, the FPS state is still
updated by the usual rule, the FPS overlay is still drawn once — and the
frame is still displayed provided the cancel key is not pressed on that
iteration. -/
theorem c10_empty_categories (st : LoopState) (inp : IterInput)
    (hr : inp.readOk = true) (hcat : inp.categories = []) :
    (stepEvents (step st inp)).countP isDrawResult = 0 ∧
    (stepEvents (step st inp)).countP isPrintInference = 0 ∧
    stepState? (step st inp) = some
      ⟨st.counter + 1,
       (fpsUpdate (st.counter + 1) st.fps st.start_time inp.endTime
         inp.resetTime).1,
       (fpsUpdate (st.counter + 1) st.fps st.start_time inp.endTime
         inp.resetTime).2.1,
       st.category_name⟩ ∧
    (stepEvents (step st inp)).filter isDrawFps =
      [Event.drawFps (fps_text (fpsAfter st inp)) (_LEFT_MARGIN, _ROW_SIZE)] ∧
    (inp.key ≠ 27 → (stepEvents (step st inp)).countP isImshow = 1) := by
  have hc : processCategories st.category_name inp.categories =
      (st.category_name, [], false) := by
    rw [hcat]
    rfl
  have hcflag : (processCategories st.category_name inp.categories).2.2 = false := by
    rw [hc]
  have hstate : nextState st inp =
      ⟨st.counter + 1,
       (fpsUpdate (st.counter + 1) st.fps st.start_time inp.endTime
         inp.resetTime).1,
       (fpsUpdate (st.counter + 1) st.fps st.start_time inp.endTime
         inp.resetTime).2.1,
       st.category_name⟩ := by
    rw [nextState, hc]
  have hbreakP : ∀ p : Event → Bool,
      p Event.readFrame = false →
      p (Event.classifyCall (cvtColorBGR2RGB (flip1 inp.frame))) = false →
      (∀ x : ℚ, p (Event.fpsRecompute x) = false) →
      p (Event.drawFps (fps_text (fpsAfter st inp))
        (_LEFT_MARGIN, _ROW_SIZE)) = false →
      p (Event.pollKey inp.key) = false →
      (breakEvents st inp).countP p = 0 := by
    intro p h1 h2 h3 h4 h5
    rw [breakEvents, hc]
    simp only [List.countP_append]
    rw [fpsUpdate_countP _ _ _ _ _ p h3]
    simp [List.countP, List.countP.go, h1, h2, h4, h5]
  have hfil : (breakEvents st inp).filter isDrawFps =
      [Event.drawFps (fps_text (fpsAfter st inp)) (_LEFT_MARGIN, _ROW_SIZE)] := by
    rw [breakEvents, hc]
    simp only [List.filter_append]
    have hfp : ((fpsUpdate (st.counter + 1) st.fps st.start_time inp.endTime
        inp.resetTime).2.2).filter isDrawFps = [] := by
      rw [List.filter_eq_nil_iff]
      intro e he
      have := fpsUpdate_events (st.counter + 1) st.fps st.start_time
        inp.endTime inp.resetTime e he
      cases e <;> simp_all [isFpsRecompute, isDrawFps]
    rw [hfp]
    simp [isDrawFps]
  by_cases hk : inp.key = 27
  · have hstep := step_break st inp hr hcflag hk
    rw [hstep, stepEvents, stepState?, hstate]
    refine ⟨hbreakP isDrawResult rfl rfl (fun x => rfl) rfl rfl,
      hbreakP isPrintInference rfl rfl (fun x => rfl) rfl rfl,
      rfl, hfil, fun hne => absurd hk hne⟩
  · have hstep := step_next st inp hr hcflag hk
    rw [hstep, stepEvents, stepState?, hstate, nextEvents]
    refine ⟨?_, ?_, rfl, ?_, fun hne => ?_⟩
    · rw [List.countP_append, hbreakP isDrawResult rfl rfl (fun x => rfl) rfl rfl]
      rfl
    · rw [List.countP_append,
        hbreakP isPrintInference rfl rfl (fun x => rfl) rfl rfl]
      rfl
    · rw [List.filter_append, hfil]
      simp [isDrawFps]
    · rw [List.countP_append, breakEvents_no_imshow]
      rfl

/-- Witness for C10 (amended): a concrete zero-category iteration. -/
theorem c10_empty_categories_witness :
    (stepEvents (step (initState 0) quietInput)).countP isDrawResult = 0 ∧
    (stepEvents (step (initState 0) quietInput)).countP isPrintInference = 0 ∧
    (stepEvents (step (initState 0) quietInput)).countP isImshow = 1 :=
  ⟨(c10_empty_categories (initState 0) quietInput rfl rfl).1,
   (c10_empty_categories (initState 0) quietInput rfl rfl).2.1,
   (c10_empty_categories (initState 0) quietInput rfl rfl).2.2.2.2 (by decide)⟩

end Classify
